import Mathlib

/-!
Shallow embedding of the quantum-database-backups repository.

The JavaScript sources are modelled as executable Lean functions. External
effects (subprocess invocations of the database tools, the unzip binary, the
cryptography library, SMTP delivery, and raw filesystem faults) enter the
model as explicit oracle parameters of type Except String _ describing the
outcome of the one external call a stage performs; everything the repository
code itself does around those calls (option validation, error wrapping,
cleanup, control flow) is translated directly from the source.
-/

namespace QDB

/-- Truthiness of an optional JavaScript string: undefined and the empty
string are falsy, every other string is truthy. -/
def truthy : Option String → Bool
  | none => false
  | some s => !(s == "")

/-- Value of an optional JavaScript string, defaulting to the empty string. -/
def strVal : Option String → String
  | none => ""
  | some s => s

/-- Result shape returned by every provider validateConfig, from the sources:
a valid flag and a list of error messages. -/
structure ValidationResult where
  valid : Bool
  errors : List String
deriving DecidableEq

/-- Configuration object passed to the provider validateConfig methods.
Fields the four providers read, plus a bag of extraneous fields that none of
them reads (modelling arbitrary extra keys on the JavaScript object). -/
structure ProviderConfig where
  mongodbUri : Option String
  mysqlUser : Option String
  mysqlDatabase : Option String
  postgresUser : Option String
  postgresDatabase : Option String
  extra : List (String × String)
deriving DecidableEq

/-- SupabaseProvider.validateConfig from src/providers/supabase.js: the
errors list is always empty, so every config is accepted. -/
def SupabaseProvider.validateConfig (_config : ProviderConfig) : ValidationResult :=
  let errors : List String := []
  { valid := errors.length == 0, errors := errors }

/-- MongoDBProvider.validateConfig from src/providers/mongodb.js: pushes an
error only when mongodbUri is truthy and does not start with mongodb:// —
an absent URI produces no error. -/
def MongoDBProvider.validateConfig (config : ProviderConfig) : ValidationResult :=
  let errors : List String :=
    if truthy config.mongodbUri && !((strVal config.mongodbUri).startsWith "mongodb://") then
      ["MongoDB URI must start with mongodb://"]
    else []
  { valid := errors.length == 0, errors := errors }

/-- MySQLProvider.validateConfig from src/providers/mysql.js: requires a
truthy mysqlUser and a truthy mysqlDatabase. -/
def MySQLProvider.validateConfig (config : ProviderConfig) : ValidationResult :=
  let errors : List String :=
    (if truthy config.mysqlUser then [] else ["MySQL user is required"]) ++
    (if truthy config.mysqlDatabase then [] else ["MySQL database is required"])
  { valid := errors.length == 0, errors := errors }

/-- PostgreSQLProvider.validateConfig from src/providers/postgres.js:
requires a truthy postgresUser and a truthy postgresDatabase. -/
def PostgreSQLProvider.validateConfig (config : ProviderConfig) : ValidationResult :=
  let errors : List String :=
    (if truthy config.postgresUser then [] else ["PostgreSQL user is required"]) ++
    (if truthy config.postgresDatabase then [] else ["PostgreSQL database is required"])
  { valid := errors.length == 0, errors := errors }

/-- Copy of a provider config with the extraneous-field bag replaced. -/
def withExtra (c : ProviderConfig) (e : List (String × String)) : ProviderConfig :=
  { c with extra := e }

/-- Provider options bag handed to createDump and restoreFromDump (host,
port, user, password, database, uri, drop, clean), as assembled by the CLI
restore command. -/
structure DumpOptions where
  host : Option String
  port : Option Nat
  user : Option String
  password : Option String
  database : Option String
  uri : Option String
  drop : Bool
  clean : Bool
deriving DecidableEq

/-- Outcome of one external-tool invocation, supplied as an oracle. -/
def probeSucceeds : Except String Unit → Bool
  | .ok _ => true
  | .error _ => false

/-- SupabaseProvider.isAvailable: try/catch around the version probe of the
supabase CLI; returns true on success and false on any probe failure, and
itself never throws (its result is always Except.ok). -/
def SupabaseProvider.isAvailable (probe : Except String Unit) : Except String Bool :=
  match probe with
  | .ok _ => .ok true
  | .error _ => .ok false

/-- MongoDBProvider.isAvailable: try/catch around the mongodump version
probe. -/
def MongoDBProvider.isAvailable (probe : Except String Unit) : Except String Bool :=
  match probe with
  | .ok _ => .ok true
  | .error _ => .ok false

/-- MySQLProvider.isAvailable: try/catch around the mysqldump version
probe. -/
def MySQLProvider.isAvailable (probe : Except String Unit) : Except String Bool :=
  match probe with
  | .ok _ => .ok true
  | .error _ => .ok false

/-- PostgreSQLProvider.isAvailable: try/catch around the pg_dump version
probe. -/
def PostgreSQLProvider.isAvailable (probe : Except String Unit) : Except String Bool :=
  match probe with
  | .ok _ => .ok true
  | .error _ => .ok false

/-- File extension reported by SupabaseProvider.getFileExtension. -/
def SupabaseProvider.getFileExtension : String := "sql"

/-- File extension reported by MongoDBProvider.getFileExtension. -/
def MongoDBProvider.getFileExtension : String := "archive"

/-- File extension reported by MySQLProvider.getFileExtension. -/
def MySQLProvider.getFileExtension : String := "sql"

/-- File extension reported by PostgreSQLProvider.getFileExtension. -/
def PostgreSQLProvider.getFileExtension : String := "dump"

/-- MySQLProvider.createDump: the guard before the mysqldump invocation
throws when user or database is falsy; the surrounding catch wraps every
error. The Bool in the result records whether the external tool was
invoked; tool is the oracle for the mysqldump call when it happens. -/
def MySQLProvider.createDump (options : DumpOptions) (tool : Except String Unit) :
    Except String Unit × Bool :=
  if !(truthy options.user) || !(truthy options.database) then
    (.error ("MySQL dump failed: " ++ "MySQL user and database are required"), false)
  else
    match tool with
    | .ok _ => (.ok (), true)
    | .error e => (.error ("MySQL dump failed: " ++ e), true)

/-- MySQLProvider.restoreFromDump: same guard before the mysql invocation,
with the restore-specific messages. -/
def MySQLProvider.restoreFromDump (options : DumpOptions) (tool : Except String Unit) :
    Except String Unit × Bool :=
  if !(truthy options.user) || !(truthy options.database) then
    (.error ("MySQL restore failed: " ++ "MySQL user and database are required for restore"), false)
  else
    match tool with
    | .ok _ => (.ok (), true)
    | .error e => (.error ("MySQL restore failed: " ++ e), true)

/-- MongoDBProvider.createDump: the guard before the mongodump invocation
throws when uri is falsy; the surrounding catch wraps every error. -/
def MongoDBProvider.createDump (options : DumpOptions) (tool : Except String Unit) :
    Except String Unit × Bool :=
  if !(truthy options.uri) then
    (.error ("MongoDB dump failed: " ++ "MongoDB URI is required"), false)
  else
    match tool with
    | .ok _ => (.ok (), true)
    | .error e => (.error ("MongoDB dump failed: " ++ e), true)

/-- MongoDBProvider.restoreFromDump: same guard before the mongorestore
invocation. -/
def MongoDBProvider.restoreFromDump (options : DumpOptions) (tool : Except String Unit) :
    Except String Unit × Bool :=
  if !(truthy options.uri) then
    (.error ("MongoDB restore failed: " ++ "MongoDB URI is required for restore"), false)
  else
    match tool with
    | .ok _ => (.ok (), true)
    | .error e => (.error ("MongoDB restore failed: " ++ e), true)

/-- Calendar reading taken by new Date() in generateTimestamp: year from
getFullYear, zero-based month from getMonth, day of month from getDate,
and the time-of-day fields. -/
structure DateTime where
  year : Nat
  month : Nat
  day : Nat
  hours : Nat
  minutes : Nat
  seconds : Nat
deriving DecidableEq

/-- JavaScript padStart(2, zero): left-pads a string with the zero digit up
to length two. -/
def jsPadStart2 (s : String) : String :=
  if s.length < 2 then String.mk (List.replicate (2 - s.length) '0') ++ s else s

/-- Two-digit field of generateTimestamp: String(n).padStart(2, zero). -/
def pad2 (n : Nat) : String := jsPadStart2 (toString n)

/-- generateTimestamp from src/utils.js: YYYYMMDD-HHMMSS, with the year
stringified as is and every other field padded to two digits (month is
incremented first, since getMonth is zero-based). -/
def generateTimestamp (now : DateTime) : String :=
  toString now.year ++ pad2 (now.month + 1) ++ pad2 now.day ++ "-" ++
    pad2 now.hours ++ pad2 now.minutes ++ pad2 now.seconds

/-- generateBackupFilename from src/utils.js (the source defaults extension
to sql when omitted). -/
def generateBackupFilename (now : DateTime) (dbName extension : String) : String :=
  "supabase-backup-" ++ generateTimestamp now ++ "-" ++ dbName ++ "." ++ extension

/-- path.join for the two-segment joins the sources perform. -/
def pathJoin (a b : String) : String := a ++ "/" ++ b

/-- Decimal digit characters of a natural number, most significant first;
a reference function used to reason about the strings produced by
toString. -/
def decChars (n : Nat) : List Char :=
  if n < 10 then [Nat.digitChar n]
  else decChars (n / 10) ++ [Nat.digitChar (n % 10)]
decreasing_by exact Nat.div_lt_self (by omega) (by omega)

/-- Outcome of one backup stage (dumpDatabase or createZipArchive): success,
or failure with the error message the stage rejected with and a flag saying
whether the stage had already created its output file when it failed. -/
inductive StageResult where
  | ok : StageResult
  | err (created : Bool) (msg : String) : StageResult
deriving DecidableEq

/-- Presence flags for the three artifacts a backup run can put in the
working directory: the dump file, the zip archive, and the encrypted file. -/
structure BackupFs where
  dumpFile : Bool
  zipFile : Bool
  encFile : Bool
deriving DecidableEq

/-- Model of fs.unlink(p).catch(noop): the file is removed if present, and
the ENOENT rejection for an absent file is swallowed by the catch, so the
file is absent afterwards in every case. -/
def jsUnlinkCatch (_present : Bool) : Bool := false

/-- Result of one createBackup run: the artifact presence flags, the settled
value (the dump and zip paths on success, the rethrown stage error on
failure), and the unlink calls the catch block issued. -/
structure BackupRun where
  fs : BackupFs
  result : Except String (String × String)
  unlinkCalls : List String

/-- createBackup from src/backup.js: computes the timestamped dump and zip
paths, runs the dump stage then the zip stage, and on a failure of either
unlinks both paths (errors swallowed) before rethrowing the original error.
The working directory starts without the three artifacts, since both
filenames are freshly generated. -/
def createBackup (now : DateTime) (dbName workDir ext : String)
    (dump zip : StageResult) : BackupRun :=
  let dumpPath := pathJoin workDir (generateBackupFilename now dbName ext)
  let zipPath := pathJoin workDir (generateBackupFilename now dbName "zip")
  match dump with
  | .err created msg =>
      let fsAfterDump : BackupFs := ⟨created, false, false⟩
      let fsCleaned : BackupFs :=
        ⟨jsUnlinkCatch fsAfterDump.dumpFile, jsUnlinkCatch fsAfterDump.zipFile,
          fsAfterDump.encFile⟩
      { fs := fsCleaned, result := .error msg, unlinkCalls := [dumpPath, zipPath] }
  | .ok =>
      match zip with
      | .err created msg =>
          let fsAfterZip : BackupFs := ⟨true, created, false⟩
          let fsCleaned : BackupFs :=
            ⟨jsUnlinkCatch fsAfterZip.dumpFile, jsUnlinkCatch fsAfterZip.zipFile,
              fsAfterZip.encFile⟩
          { fs := fsCleaned, result := .error msg, unlinkCalls := [dumpPath, zipPath] }
      | .ok =>
          { fs := ⟨true, true, false⟩, result := .ok (dumpPath, zipPath), unlinkCalls := [] }

/-- Observable outcome of the CLI backup command action: the process exit
code, the error printed on failure, the encrypted-backup path line printed
on success, and the artifact flags. -/
structure CmdOutcome where
  exitCode : Nat
  errorMsg : Option String
  reportedBackupPath : Option String
  fs : BackupFs
deriving DecidableEq

/-- Backup command action from src/cli.js, from the createBackup call
onward: encrypt the zip (encryptBackupFile wraps its errors), optionally
send the email (sendBackupEmail wraps its errors), then unless keepFiles
delete the dump and zip. Any thrown error lands in the single catch, which
prints the message and exits with code 1 — the encrypted-backup path line
is only printed after every step before it has succeeded. The default
provider is supabase, so createBackup runs with its file extension. -/
def backupCommand (now : DateTime) (dbName workDir : String)
    (emailEnabled keepFiles : Bool) (dump zip : StageResult)
    (encryptR emailR : Except String Unit) : CmdOutcome :=
  let run := createBackup now dbName workDir SupabaseProvider.getFileExtension dump zip
  match run.result with
  | .error m =>
      { exitCode := 1, errorMsg := some m, reportedBackupPath := none, fs := run.fs }
  | .ok (_dumpPath, zipPath) =>
      let encryptedFile := zipPath ++ ".encrypted"
      match encryptR with
      | .error m =>
          { exitCode := 1, errorMsg := some ("Encryption failed: " ++ m),
            reportedBackupPath := none, fs := run.fs }
      | .ok _ =>
          let fsEnc : BackupFs := { run.fs with encFile := true }
          let emailFailure : Option String :=
            if emailEnabled then
              match emailR with
              | .error m => some ("Failed to send email: " ++ m)
              | .ok _ => none
            else none
          match emailFailure with
          | some m =>
              { exitCode := 1, errorMsg := some m, reportedBackupPath := none, fs := fsEnc }
          | none =>
              let fsFinal : BackupFs :=
                if keepFiles then fsEnc else { fsEnc with dumpFile := false, zipFile := false }
              { exitCode := 0, errorMsg := none,
                reportedBackupPath := some encryptedFile, fs := fsFinal }

/-- Test whether a path lies in the subtree rooted at dir: it is dir itself
or has dir followed by a slash as a prefix. -/
def underDir (dir q : String) : Bool :=
  q == dir || List.isPrefixOf (dir ++ "/").data q.data

/-- ensureDirectory from src/utils.js over a filesystem modelled as the
list of existing paths: create the path unless it already exists. -/
def ensureDirectory (p : String) (fileSystem : List String) : List String :=
  if fileSystem.contains p then fileSystem else p :: fileSystem

/-- fs.rm(p, recursive + force): removes the path and everything below
it. -/
def rmRecursiveForce (p : String) (fileSystem : List String) : List String :=
  fileSystem.filter (fun q => !(underDir p q))

/-- JavaScript endsWith, modelled over the character data of the two
strings. -/
def jsEndsWith (s suffix : String) : Bool :=
  List.isSuffixOf suffix.data s.data

/-- Extension-based dump recognizer from extractZipArchive in
src/restore.js. -/
def isDumpFile (f : String) : Bool :=
  jsEndsWith f ".sql" || jsEndsWith f ".dump" || jsEndsWith f ".archive" || jsEndsWith f ".bson"

/-- extractZipArchive from src/restore.js: ensure the output directory,
run unzip (the oracle yields the names unzip wrote into outputDir, or its
failure), then search that listing for the first recognized dump file.
Every error is wrapped with the extract-stage prefix. -/
def extractZipArchive (outputDir : String) (unzipR : Except String (List String))
    (fileSystem : List String) : Except String String × List String :=
  let fs1 := ensureDirectory outputDir fileSystem
  match unzipR with
  | .error m => (.error ("Failed to extract archive: " ++ m), fs1)
  | .ok files =>
      let fs2 := files.map (fun f => pathJoin outputDir f) ++ fs1
      match files.find? (fun f => isDumpFile f) with
      | none =>
          (.error ("Failed to extract archive: " ++ "No database dump file found in archive"), fs2)
      | some dumpFile => (.ok (pathJoin outputDir dumpFile), fs2)

/-- restoreFromBackup from src/restore.js: ensure the working directory,
then decrypt into decrypted-backup.zip, extract into the nested extracted
directory, and run the provider restore; the finally block removes the
whole working directory recursively on every exit path before the settled
value is produced. Oracles: decryptR is the outcome of decryptBackupFile
(which wraps its own errors), unzipR the unzip outcome, restoreR the
provider restoreFromDump outcome. -/
def restoreFromBackup (fs0 : List String) (workDir : String)
    (decryptR : Except String Unit) (unzipR : Except String (List String))
    (restoreR : Except String Unit) : Except String String × List String :=
  let fs1 := ensureDirectory workDir fs0
  let decryptedZipPath := pathJoin workDir "decrypted-backup.zip"
  let extractDir := pathJoin workDir "extracted"
  match decryptR with
  | .error m => (.error m, rmRecursiveForce workDir fs1)
  | .ok _ =>
      let fs2 := decryptedZipPath :: fs1
      match extractZipArchive extractDir unzipR fs2 with
      | (.error m, fs3) => (.error m, rmRecursiveForce workDir fs3)
      | (.ok dumpFilePath, fs3) =>
          match restoreR with
          | .error m => (.error m, rmRecursiveForce workDir fs3)
          | .ok _ => (.ok dumpFilePath, rmRecursiveForce workDir fs3)

/-- JSON value, as far as the key file handling observes it. -/
inductive JsonVal where
  | str (s : String)
  | num (n : Int)
  | bool (b : Bool)
  | null
deriving DecidableEq

/-- JavaScript membership test key in obj over a parsed JSON object. -/
def hasKey (obj : List (String × JsonVal)) (k : String) : Bool :=
  obj.any (fun p => p.1 == k)

/-- validateRequiredKeys from src/utils.js: filter the required key names
down to the missing ones and throw an error joining them when any are
missing. -/
def validateRequiredKeys (obj : List (String × JsonVal)) (requiredKeys : List String) :
    Except String Unit :=
  let missingKeys := requiredKeys.filter (fun k => !(hasKey obj k))
  if missingKeys.length > 0 then
    .error ("Missing required keys: " ++ String.intercalate ", " missingKeys)
  else .ok ()

/-- loadKeys from src/encrypt.js: read and parse the keys file (the oracle
carries the readJsonFile outcome, whose failures arrive already wrapped),
validate that publicKey and privateKey exist, and return the parsed
object. -/
def loadKeys (readR : Except String (List (String × JsonVal))) :
    Except String (List (String × JsonVal)) :=
  match readR with
  | .error m => .error m
  | .ok keys =>
      match validateRequiredKeys keys ["publicKey", "privateKey"] with
      | .error m => .error m
      | .ok _ => .ok keys

/-- Error rejected by an fs promise, carrying its code property. -/
structure FsError where
  code : String
deriving DecidableEq

/-- fs.unlink over the list-of-paths filesystem: rejects with ENOENT when
the path is absent; when it is present, either an injected filesystem fault
is rejected or the path is removed. -/
def fsUnlink (fileSystem : List String) (p : String) (fault : Option FsError) :
    Except FsError (List String) :=
  if fileSystem.contains p then
    match fault with
    | some e => .error e
    | none => .ok (fileSystem.filter (fun q => !(q == p)))
  else .error ⟨"ENOENT"⟩

/-- deleteFile from src/utils.js: call fs.unlink and rethrow the error
unless its code is ENOENT. -/
def deleteFile (fileSystem : List String) (p : String) (fault : Option FsError) :
    Except FsError (List String) :=
  match fsUnlink fileSystem p fault with
  | .ok fs2 => .ok fs2
  | .error e => if !(e.code == "ENOENT") then .error e else .ok fileSystem

/-! Helper lemmas about decimal string rendering. -/

theorem toDigitsCore_eq_decChars :
    ∀ (f n : Nat) (ds : List Char), n < f →
      Nat.toDigitsCore 10 f n ds = decChars n ++ ds := by
  intro f
  induction f with
  | zero => intro n ds h; omega
  | succ f ih =>
      intro n ds h
      rw [Nat.toDigitsCore]
      by_cases hn : n / 10 = 0
      · have hlt : n < 10 := by omega
        rw [decChars]
        simp [hn, hlt, Nat.mod_eq_of_lt hlt]
      · have hge : 10 ≤ n := by
          by_contra hc
          exact hn (Nat.div_eq_of_lt (by omega))
        have hdiv : n / 10 < f := by
          have h1 : n / 10 < n := Nat.div_lt_self (by omega) (by omega)
          omega
        rw [decChars]
        simp only [hn, if_false]
        rw [ih (n / 10) (Nat.digitChar (n % 10) :: ds) hdiv]
        rw [if_neg (by omega : ¬ n < 10)]
        simp [List.append_assoc]

theorem toString_nat_data (n : Nat) : (toString n).data = decChars n := by
  show (Nat.repr n).data = decChars n
  unfold Nat.repr Nat.toDigits
  rw [toDigitsCore_eq_decChars (n + 1) n [] (by omega)]
  simp [List.asString]

theorem digitChar_isDigit : ∀ n, n < 10 → (Nat.digitChar n).isDigit = true := by decide

theorem decChars_all_digit (n : Nat) : (decChars n).all Char.isDigit = true := by
  induction n using Nat.strong_induction_on with
  | _ n ih =>
      rw [decChars]
      by_cases h : n < 10
      · simp [h, digitChar_isDigit n h]
      · rw [if_neg h]
        rw [List.all_append]
        rw [ih (n / 10) (Nat.div_lt_self (by omega) (by omega))]
        simp [digitChar_isDigit (n % 10) (Nat.mod_lt n (by omega))]

theorem decChars_len1 (n : Nat) (h : n < 10) : (decChars n).length = 1 := by
  rw [decChars, if_pos h]; rfl

theorem decChars_len2 (n : Nat) (h1 : 10 ≤ n) (h2 : n < 100) : (decChars n).length = 2 := by
  rw [decChars, if_neg (by omega : ¬ n < 10)]
  rw [List.length_append]
  rw [decChars_len1 (n / 10) (by omega)]
  rfl

theorem decChars_len3 (n : Nat) (h1 : 100 ≤ n) (h2 : n < 1000) : (decChars n).length = 3 := by
  rw [decChars, if_neg (by omega : ¬ n < 10)]
  rw [List.length_append]
  rw [decChars_len2 (n / 10) (by omega) (by omega)]
  rfl

theorem decChars_len4 (n : Nat) (h1 : 1000 ≤ n) (h2 : n < 10000) : (decChars n).length = 4 := by
  rw [decChars, if_neg (by omega : ¬ n < 10)]
  rw [List.length_append]
  rw [decChars_len3 (n / 10) (by omega) (by omega)]
  rfl

theorem toString_nat_length (n : Nat) : (toString n).length = (decChars n).length := by
  show (toString n).data.length = (decChars n).length
  rw [toString_nat_data]

theorem pad2_data (n : Nat) (h : n < 100) :
    (pad2 n).data.length = 2 ∧ (pad2 n).data.all Char.isDigit = true := by
  unfold pad2 jsPadStart2
  by_cases h10 : n < 10
  · rw [if_pos (by rw [toString_nat_length, decChars_len1 n h10]; omega)]
    rw [String.data_append]
    rw [toString_nat_length, decChars_len1 n h10]
    constructor
    · simp [toString_nat_data, decChars_len1 n h10, String.mk]
    · rw [List.all_append]
      rw [toString_nat_data, decChars_all_digit]
      simp [String.mk, List.replicate]
  · rw [if_neg (by rw [toString_nat_length, decChars_len2 n (by omega) h]; omega)]
    constructor
    · show (toString n).data.length = 2
      rw [toString_nat_data, decChars_len2 n (by omega) h]
    · rw [toString_nat_data, decChars_all_digit]

/-- Claim C8: for every call (that is, for every calendar reading the clock
can produce, with a four-digit year), generateBackupFilename applied to
orders_db and sql returns a string of the shape
prefix-backup-(8 digits)-(6 digits)-orders_db.sql, and the zip extension
yields the same prefix and timestamp with a .zip suffix instead. -/
theorem c8_filename_pattern (now : DateTime)
    (hy1 : 1000 ≤ now.year) (hy2 : now.year < 10000)
    (hm : now.month < 12) (hd : now.day ≤ 31)
    (hh : now.hours ≤ 23) (hmin : now.minutes ≤ 59) (hs : now.seconds ≤ 59) :
    ∃ d8 d6 : String,
      d8.data.length = 8 ∧ d8.data.all Char.isDigit = true ∧
      d6.data.length = 6 ∧ d6.data.all Char.isDigit = true ∧
      generateBackupFilename now "orders_db" "sql" =
        "supabase-backup-" ++ d8 ++ "-" ++ d6 ++ "-" ++ "orders_db" ++ "." ++ "sql" ∧
      generateBackupFilename now "orders_db" "zip" =
        "supabase-backup-" ++ d8 ++ "-" ++ d6 ++ "-" ++ "orders_db" ++ "." ++ "zip" := by
  have hyd : (toString now.year).data.length = 4 := by
    rw [toString_nat_data]; exact decChars_len4 now.year hy1 hy2
  have hya : (toString now.year).data.all Char.isDigit = true := by
    rw [toString_nat_data]; exact decChars_all_digit now.year
  have hmo := pad2_data (now.month + 1) (by omega)
  have hda := pad2_data now.day (by omega)
  have hho := pad2_data now.hours (by omega)
  have hmi := pad2_data now.minutes (by omega)
  have hse := pad2_data now.seconds (by omega)
  refine ⟨toString now.year ++ pad2 (now.month + 1) ++ pad2 now.day,
    pad2 now.hours ++ pad2 now.minutes ++ pad2 now.seconds, ?_, ?_, ?_, ?_, ?_, ?_⟩
  · simp only [String.data_append, List.length_append]
    omega
  · simp only [String.data_append, List.all_append]
    rw [hya, hmo.2, hda.2]
    rfl
  · simp only [String.data_append, List.length_append]
    omega
  · simp only [String.data_append, List.all_append]
    rw [hho.2, hmi.2, hse.2]
    rfl
  · apply String.ext
    simp [generateBackupFilename, generateTimestamp, String.data_append, List.append_assoc]
  · apply String.ext
    simp [generateBackupFilename, generateTimestamp, String.data_append, List.append_assoc]

/-! Generic helpers about the list-of-paths filesystem model. -/

theorem filter_rmRecursiveForce (p : String) (l : List String) :
    (rmRecursiveForce p l).filter (fun q => underDir p q) = [] := by
  unfold rmRecursiveForce
  induction l with
  | nil => rfl
  | cons a l ih =>
      by_cases h : underDir p a = true
      · simp only [List.filter_cons, h, Bool.not_true, Bool.false_eq_true, if_false]
        exact ih
      · have h2 : underDir p a = false := by revert h; cases underDir p a <;> simp
        simp only [List.filter_cons, h2, Bool.not_false, if_true, Bool.false_eq_true, if_false]
        exact ih

theorem contains_filter_of_not (l : List String) (p : String) (f : String → Bool)
    (hf : f p = false) : (l.filter f).contains p = false := by
  induction l with
  | nil => rfl
  | cons a l ih =>
      by_cases hfa : f a = true
      · have haq : (p == a) = false := by
          by_cases he : p = a
          · rw [he] at hf; rw [hf] at hfa; cases hfa
          · exact beq_eq_false_iff_ne.mpr he
        simp only [List.filter_cons, hfa, if_true, List.contains_cons, haq, Bool.false_or]
        exact ih
      · have h2 : f a = false := by revert hfa; cases f a <;> simp
        simp only [List.filter_cons, h2, Bool.false_eq_true, if_false]
        exact ih

theorem rm_contains_false (p q : String) (l : List String) (h : underDir p q = true) :
    (rmRecursiveForce p l).contains q = false := by
  unfold rmRecursiveForce
  exact contains_filter_of_not l q _ (by rw [h]; rfl)

theorem underDir_extracted (dir s : String) :
    underDir dir (pathJoin (pathJoin dir "extracted") s) = true := by
  unfold underDir pathJoin
  have hpre : List.isPrefixOf (dir ++ "/").data
      ((dir ++ "/" ++ "extracted" ++ "/" ++ s).data) = true := by
    rw [List.isPrefixOf_iff_prefix]
    refine ⟨("extracted" ++ "/" ++ s).data, ?_⟩
    simp [String.data_append, List.append_assoc]
  rw [hpre]
  simp

/-! Claim theorems. -/

/-- Claim C1: when the dump stage or the archive stage of createBackup
fails, createBackup settles with the original stage error, after issuing
unlink calls for both the dump path and the zip path it computed (the model
swallows unlink rejections, as the catch-wrapped unlink calls in the source
do), and afterwards none of the dump, archive, or encrypted artifacts of
the run remains in the working directory. -/
theorem c1_backup_failure_cleanup (now : DateTime) (dbName workDir ext : String)
    (created : Bool) (msg : String) (zip : StageResult) (zCreated : Bool) (zMsg : String) :
    createBackup now dbName workDir ext (.err created msg) zip =
      { fs := ⟨false, false, false⟩, result := .error msg,
        unlinkCalls := [pathJoin workDir (generateBackupFilename now dbName ext),
          pathJoin workDir (generateBackupFilename now dbName "zip")] } ∧
    createBackup now dbName workDir ext .ok (.err zCreated zMsg) =
      { fs := ⟨false, false, false⟩, result := .error zMsg,
        unlinkCalls := [pathJoin workDir (generateBackupFilename now dbName ext),
          pathJoin workDir (generateBackupFilename now dbName "zip")] } :=
  ⟨rfl, rfl⟩

/-- Claim C2: on every exit path of restoreFromBackup — success or a
failure of the decrypt, extract, or provider restore stage — no path at or
below the working directory (hence in particular nothing in its nested
extracted subdirectory) survives in the filesystem the function leaves
behind. -/
theorem c2_restore_cleanup (fs0 : List String) (workDir : String)
    (decryptR : Except String Unit) (unzipR : Except String (List String))
    (restoreR : Except String Unit) :
    ((restoreFromBackup fs0 workDir decryptR unzipR restoreR).2).filter
      (fun q => underDir workDir q) = [] := by
  unfold restoreFromBackup extractZipArchive
  cases decryptR with
  | error m => exact filter_rmRecursiveForce workDir _
  | ok u =>
      cases unzipR with
      | error m => exact filter_rmRecursiveForce workDir _
      | ok files =>
          cases hf : files.find? (fun f => isDumpFile f) with
          | none => simp only [hf]; exact filter_rmRecursiveForce workDir _
          | some d =>
              simp only [hf]
              cases restoreR with
              | error m => exact filter_rmRecursiveForce workDir _
              | ok v => exact filter_rmRecursiveForce workDir _

/-- Claim C3 counterexample: a MongoDB options object with no URI at all is
accepted by MongoDBProvider.validateConfig with an empty errors list,
whereas the claim requires valid to be false with a non-empty errors list
whenever the URI is absent. -/
theorem c3_counterexample :
    (MongoDBProvider.validateConfig ⟨none, none, none, none, none, []⟩).valid = true ∧
    (MongoDBProvider.validateConfig ⟨none, none, none, none, none, []⟩).errors = [] :=
  ⟨rfl, rfl⟩

/-- Claim C3 amended: MySQL and PostgreSQL validateConfig accept exactly
the configs carrying their truthy user and database fields, rejecting with
a non-empty errors list otherwise; Supabase validateConfig accepts every
config; MongoDB validateConfig accepts a config without a URI and rejects
only a present URI that does not start with mongodb://; and for all four
providers the verdict is unchanged by arbitrary extraneous fields. -/
theorem c3_amended (c : ProviderConfig) (e : List (String × String)) :
    ((MySQLProvider.validateConfig c).valid = true ↔
      (truthy c.mysqlUser = true ∧ truthy c.mysqlDatabase = true)) ∧
    ((MySQLProvider.validateConfig c).valid = false ↔
      (MySQLProvider.validateConfig c).errors ≠ []) ∧
    ((PostgreSQLProvider.validateConfig c).valid = true ↔
      (truthy c.postgresUser = true ∧ truthy c.postgresDatabase = true)) ∧
    ((PostgreSQLProvider.validateConfig c).valid = false ↔
      (PostgreSQLProvider.validateConfig c).errors ≠ []) ∧
    (SupabaseProvider.validateConfig c).valid = true ∧
    (SupabaseProvider.validateConfig c).errors = [] ∧
    ((MongoDBProvider.validateConfig c).valid = true ↔
      (truthy c.mongodbUri = true → (strVal c.mongodbUri).startsWith "mongodb://" = true)) ∧
    ((MongoDBProvider.validateConfig c).valid = false ↔
      (MongoDBProvider.validateConfig c).errors ≠ []) ∧
    MySQLProvider.validateConfig (withExtra c e) = MySQLProvider.validateConfig c ∧
    PostgreSQLProvider.validateConfig (withExtra c e) = PostgreSQLProvider.validateConfig c ∧
    SupabaseProvider.validateConfig (withExtra c e) = SupabaseProvider.validateConfig c ∧
    MongoDBProvider.validateConfig (withExtra c e) = MongoDBProvider.validateConfig c := by
  refine ⟨?_, ?_, ?_, ?_, rfl, rfl, ?_, ?_, rfl, rfl, rfl, rfl⟩
  · cases hu : truthy c.mysqlUser <;> cases hd : truthy c.mysqlDatabase <;>
      simp [MySQLProvider.validateConfig, hu, hd]
  · cases hu : truthy c.mysqlUser <;> cases hd : truthy c.mysqlDatabase <;>
      simp [MySQLProvider.validateConfig, hu, hd]
  · cases hu : truthy c.postgresUser <;> cases hd : truthy c.postgresDatabase <;>
      simp [PostgreSQLProvider.validateConfig, hu, hd]
  · cases hu : truthy c.postgresUser <;> cases hd : truthy c.postgresDatabase <;>
      simp [PostgreSQLProvider.validateConfig, hu, hd]
  · cases hu : truthy c.mongodbUri <;>
      cases hs : (strVal c.mongodbUri).startsWith "mongodb://" <;>
      simp [MongoDBProvider.validateConfig, hu, hs]
  · cases hu : truthy c.mongodbUri <;>
      cases hs : (strVal c.mongodbUri).startsWith "mongodb://" <;>
      simp [MongoDBProvider.validateConfig, hu, hs]

/-- Claim C4 counterexample: in a run where dump, archive, and encryption
all succeed but email delivery fails, the backup command exits with code 1
and never prints the encrypted-backup path line, even though the encrypted
artifact is on disk — the claim asserts the path is reported to the caller
in this situation. -/
theorem c4_counterexample :
    (backupCommand ⟨2025, 9, 12, 0, 36, 45⟩ "orders_db" "backups" true false .ok .ok
        (.ok ()) (.error "SMTP connection refused")).reportedBackupPath = none ∧
    (backupCommand ⟨2025, 9, 12, 0, 36, 45⟩ "orders_db" "backups" true false .ok .ok
        (.ok ()) (.error "SMTP connection refused")).fs.encFile = true ∧
    (backupCommand ⟨2025, 9, 12, 0, 36, 45⟩ "orders_db" "backups" true false .ok .ok
        (.ok ()) (.error "SMTP connection refused")).exitCode = 1 :=
  ⟨rfl, rfl, rfl⟩

/-- Claim C4 amended: when the dump, archive, and encrypt stages succeed
but email delivery fails, the backup command fails with exit code 1 and an
error message naming the email failure — distinguishable from total
failure — and the encrypted artifact remains on disk (as do the dump and
zip files, since the cleanup step is skipped); the encrypted-artifact path,
however, is not reported, because the path line is only printed after
every preceding step has succeeded. -/
theorem c4_amended (now : DateTime) (dbName workDir : String) (keepFiles : Bool) (m : String) :
    backupCommand now dbName workDir true keepFiles .ok .ok (.ok ()) (.error m) =
      { exitCode := 1, errorMsg := some ("Failed to send email: " ++ m),
        reportedBackupPath := none, fs := ⟨true, true, true⟩ } :=
  rfl

/-- Claim C5: MySQL createDump and restoreFromDump fail fast with an error
naming the missing user and database requirement, and MongoDB createDump
and restoreFromDump fail fast with an error naming the missing URI
requirement, in each case without invoking the external tool. -/
theorem c5_missing_options_fail_fast (options : DumpOptions) (tool : Except String Unit) :
    (truthy options.user = false ∨ truthy options.database = false →
      MySQLProvider.createDump options tool =
        (.error ("MySQL dump failed: " ++ "MySQL user and database are required"), false) ∧
      MySQLProvider.restoreFromDump options tool =
        (.error ("MySQL restore failed: " ++ "MySQL user and database are required for restore"),
          false)) ∧
    (truthy options.uri = false →
      MongoDBProvider.createDump options tool =
        (.error ("MongoDB dump failed: " ++ "MongoDB URI is required"), false) ∧
      MongoDBProvider.restoreFromDump options tool =
        (.error ("MongoDB restore failed: " ++ "MongoDB URI is required for restore"), false)) := by
  constructor
  · intro h
    have hcond : (!(truthy options.user) || !(truthy options.database)) = true := by
      rcases h with h | h <;> simp [h]
    constructor
    · simp [MySQLProvider.createDump, hcond]
    · simp [MySQLProvider.restoreFromDump, hcond]
  · intro h
    have hcond : (!(truthy options.uri)) = true := by simp [h]
    constructor
    · simp [MongoDBProvider.createDump, hcond]
    · simp [MongoDBProvider.restoreFromDump, hcond]

/-- Witness for C5: a wholly empty options bag is rejected by the MySQL and
MongoDB dump entry points without the tool running. -/
theorem c5_missing_options_fail_fast_witness :
    MySQLProvider.createDump ⟨none, none, none, none, none, none, false, false⟩ (.ok ()) =
      (.error ("MySQL dump failed: " ++ "MySQL user and database are required"), false) ∧
    MongoDBProvider.createDump ⟨none, none, none, none, none, none, false, false⟩ (.ok ()) =
      (.error ("MongoDB dump failed: " ++ "MongoDB URI is required"), false) :=
  ⟨((c5_missing_options_fail_fast ⟨none, none, none, none, none, none, false, false⟩
      (.ok ())).1 (Or.inl rfl)).1,
   ((c5_missing_options_fail_fast ⟨none, none, none, none, none, none, false, false⟩
      (.ok ())).2 rfl).1⟩

/-- Claim C7: for each provider variant, isAvailable never throws — its
outcome is always Except.ok — and the returned flag is true exactly when
the version probe of the external tool succeeded. -/
theorem c7_isAvailable_never_throws (probe : Except String Unit) :
    SupabaseProvider.isAvailable probe = .ok (probeSucceeds probe) ∧
    MongoDBProvider.isAvailable probe = .ok (probeSucceeds probe) ∧
    MySQLProvider.isAvailable probe = .ok (probeSucceeds probe) ∧
    PostgreSQLProvider.isAvailable probe = .ok (probeSucceeds probe) ∧
    (probeSucceeds probe = true ↔ probe = .ok ()) := by
  cases probe with
  | ok u => cases u; exact ⟨rfl, rfl, rfl, rfl, by simp [probeSucceeds]⟩
  | error e => exact ⟨rfl, rfl, rfl, rfl, by simp [probeSucceeds]⟩

/-- Claim C9: a successful restoreFromBackup run settles with the path of
the extracted dump file, that path lies inside the working directory, and
the cleanup step has already removed it from the filesystem before the
value reaches the caller — the returned path never refers to a file that
still exists. -/
theorem c9_returned_path_already_removed (fs0 : List String) (workDir : String)
    (files : List String) (dumpName : String)
    (hfind : files.find? (fun f => isDumpFile f) = some dumpName) :
    (restoreFromBackup fs0 workDir (.ok ()) (.ok files) (.ok ())).1 =
      .ok (pathJoin (pathJoin workDir "extracted") dumpName) ∧
    underDir workDir (pathJoin (pathJoin workDir "extracted") dumpName) = true ∧
    ((restoreFromBackup fs0 workDir (.ok ()) (.ok files) (.ok ())).2).contains
      (pathJoin (pathJoin workDir "extracted") dumpName) = false := by
  refine ⟨?_, underDir_extracted workDir dumpName, ?_⟩
  · unfold restoreFromBackup extractZipArchive
    simp only [hfind]
  · unfold restoreFromBackup extractZipArchive
    simp only [hfind]
    exact rm_contains_false workDir _ _ (underDir_extracted workDir dumpName)

/-- Witness for C9: a concrete successful restore of a single-entry
archive. -/
theorem c9_returned_path_already_removed_witness :
    (restoreFromBackup [] "restore-temp" (.ok ()) (.ok ["orders.sql"]) (.ok ())).1 =
      .ok (pathJoin (pathJoin "restore-temp" "extracted") "orders.sql") ∧
    underDir "restore-temp" (pathJoin (pathJoin "restore-temp" "extracted") "orders.sql") = true ∧
    ((restoreFromBackup [] "restore-temp" (.ok ()) (.ok ["orders.sql"]) (.ok ())).2).contains
      (pathJoin (pathJoin "restore-temp" "extracted") "orders.sql") = false :=
  c9_returned_path_already_removed [] "restore-temp" ["orders.sql"] "orders.sql" (by decide)

/-- Claim C10: deleteFile resolves without changing anything when the file
is already absent (the ENOENT rejection is swallowed), rethrows any other
filesystem fault, and is idempotent: a first deletion succeeds and a second
deletion of the same path succeeds and changes nothing. -/
theorem c10_deleteFile_enoent_swallowed (fileSystem : List String) (p : String) (e : FsError) :
    (fileSystem.contains p = false →
      ∀ fault : Option FsError, deleteFile fileSystem p fault = .ok fileSystem) ∧
    (fileSystem.contains p = true → (e.code == "ENOENT") = false →
      deleteFile fileSystem p (some e) = .error e) ∧
    (∃ fs1, deleteFile fileSystem p none = .ok fs1 ∧
      fs1.contains p = false ∧ deleteFile fs1 p none = .ok fs1) := by
  have habsent : ∀ (l : List String), l.contains p = false →
      ∀ fault : Option FsError, deleteFile l p fault = .ok l := by
    intro l hl fault
    unfold deleteFile fsUnlink
    rw [hl]
    rfl
  refine ⟨habsent fileSystem, ?_, ?_⟩
  · intro h1 h2
    have hres : deleteFile fileSystem p (some e) =
        if !(e.code == "ENOENT") then Except.error e else Except.ok fileSystem := by
      unfold deleteFile fsUnlink
      rw [h1]
      rfl
    rw [hres, h2]
    rfl
  · by_cases hc : fileSystem.contains p = true
    · refine ⟨fileSystem.filter (fun q => !(q == p)), ?_, ?_, ?_⟩
      · unfold deleteFile fsUnlink
        rw [hc]
        rfl
      · exact contains_filter_of_not fileSystem p _ (by simp)
      · exact habsent _ (contains_filter_of_not fileSystem p _ (by simp)) none
    · have hc2 : fileSystem.contains p = false := by
        revert hc; cases fileSystem.contains p <;> simp
      exact ⟨fileSystem, habsent fileSystem hc2 none, hc2, habsent fileSystem hc2 none⟩

/-- Witness for C10: deleting a path absent from a one-file filesystem
succeeds, and a genuine fault on a present file is rethrown. -/
theorem c10_deleteFile_enoent_swallowed_witness :
    deleteFile ["a.sql"] "b.zip" none = .ok ["a.sql"] ∧
    deleteFile ["a.sql"] "a.sql" (some ⟨"EACCES"⟩) = .error ⟨"EACCES"⟩ :=
  ⟨(c10_deleteFile_enoent_swallowed ["a.sql"] "b.zip" ⟨"EACCES"⟩).1 (by rfl) none,
   (c10_deleteFile_enoent_swallowed ["a.sql"] "a.sql" ⟨"EACCES"⟩).2.1 (by rfl) (by rfl)⟩

/-- Witness for C8 at the concrete clock reading 2025-10-12 00:36:45
(month index 9 is October, since getMonth is zero-based). -/
theorem c8_filename_pattern_witness :
    ∃ d8 d6 : String,
      d8.data.length = 8 ∧ d8.data.all Char.isDigit = true ∧
      d6.data.length = 6 ∧ d6.data.all Char.isDigit = true ∧
      generateBackupFilename ⟨2025, 9, 12, 0, 36, 45⟩ "orders_db" "sql" =
        "supabase-backup-" ++ d8 ++ "-" ++ d6 ++ "-" ++ "orders_db" ++ "." ++ "sql" ∧
      generateBackupFilename ⟨2025, 9, 12, 0, 36, 45⟩ "orders_db" "zip" =
        "supabase-backup-" ++ d8 ++ "-" ++ d6 ++ "-" ++ "orders_db" ++ "." ++ "zip" :=
  c8_filename_pattern ⟨2025, 9, 12, 0, 36, 45⟩ (by decide) (by decide) (by decide)
    (by decide) (by decide) (by decide) (by decide)

/-- Claim C6 counterexample: a keys object whose publicKey and privateKey
are numbers, not strings, is still accepted and returned by loadKeys,
whereas the claim says the accepted inputs are exactly the objects carrying
those two fields as strings. -/
theorem c6_counterexample :
    loadKeys (.ok [("publicKey", .num 1), ("privateKey", .num 2)]) =
      .ok [("publicKey", .num 1), ("privateKey", .num 2)] := by
  rfl

/-- Claim C6 amended: loadKeys accepts exactly the parsed JSON objects in
which the publicKey and privateKey fields are both present — whatever their
value type — returning the parsed object; when either field is absent it
fails with a hard validation error naming every missing field. -/
theorem c6_amended (keys : List (String × JsonVal)) :
    (hasKey keys "publicKey" = true → hasKey keys "privateKey" = true →
      loadKeys (.ok keys) = .ok keys) ∧
    (hasKey keys "publicKey" = false → hasKey keys "privateKey" = true →
      loadKeys (.ok keys) = .error ("Missing required keys: " ++ "publicKey")) ∧
    (hasKey keys "publicKey" = true → hasKey keys "privateKey" = false →
      loadKeys (.ok keys) = .error ("Missing required keys: " ++ "privateKey")) ∧
    (hasKey keys "publicKey" = false → hasKey keys "privateKey" = false →
      loadKeys (.ok keys) = .error ("Missing required keys: " ++ "publicKey, privateKey")) := by
  refine ⟨?_, ?_, ?_, ?_⟩ <;> intro h1 h2 <;>
    simp [loadKeys, validateRequiredKeys, List.filter, h1, h2, String.intercalate,
      String.join, List.intersperse] <;> rfl

/-- Witness for C6: an object carrying both fields is accepted, and an
object carrying only privateKey is rejected naming publicKey. -/
theorem c6_amended_witness :
    loadKeys (.ok [("publicKey", .str "pk"), ("privateKey", .str "sk")]) =
      .ok [("publicKey", .str "pk"), ("privateKey", .str "sk")] ∧
    loadKeys (.ok [("privateKey", .str "sk")]) =
      .error ("Missing required keys: " ++ "publicKey") :=
  ⟨(c6_amended [("publicKey", .str "pk"), ("privateKey", .str "sk")]).1 (by decide) (by decide),
   (c6_amended [("privateKey", .str "sk")]).2.1 (by decide) (by decide)⟩

/-- Witness for the amended C3 at a concrete config with every provider
field absent and one extraneous field. -/
theorem c3_amended_witness :
    ((MySQLProvider.validateConfig ⟨none, none, none, none, none, []⟩).valid = true ↔
      (truthy (ProviderConfig.mk none none none none none []).mysqlUser = true ∧
        truthy (ProviderConfig.mk none none none none none []).mysqlDatabase = true)) ∧
    ((MySQLProvider.validateConfig ⟨none, none, none, none, none, []⟩).valid = false ↔
      (MySQLProvider.validateConfig ⟨none, none, none, none, none, []⟩).errors ≠ []) ∧
    ((PostgreSQLProvider.validateConfig ⟨none, none, none, none, none, []⟩).valid = true ↔
      (truthy (ProviderConfig.mk none none none none none []).postgresUser = true ∧
        truthy (ProviderConfig.mk none none none none none []).postgresDatabase = true)) ∧
    ((PostgreSQLProvider.validateConfig ⟨none, none, none, none, none, []⟩).valid = false ↔
      (PostgreSQLProvider.validateConfig ⟨none, none, none, none, none, []⟩).errors ≠ []) ∧
    (SupabaseProvider.validateConfig ⟨none, none, none, none, none, []⟩).valid = true ∧
    (SupabaseProvider.validateConfig ⟨none, none, none, none, none, []⟩).errors = [] ∧
    ((MongoDBProvider.validateConfig ⟨none, none, none, none, none, []⟩).valid = true ↔
      (truthy (ProviderConfig.mk none none none none none []).mongodbUri = true →
        (strVal (ProviderConfig.mk none none none none none []).mongodbUri).startsWith
          "mongodb://" = true)) ∧
    ((MongoDBProvider.validateConfig ⟨none, none, none, none, none, []⟩).valid = false ↔
      (MongoDBProvider.validateConfig ⟨none, none, none, none, none, []⟩).errors ≠ []) ∧
    MySQLProvider.validateConfig (withExtra ⟨none, none, none, none, none, []⟩
        [("note", "extra")]) =
      MySQLProvider.validateConfig ⟨none, none, none, none, none, []⟩ ∧
    PostgreSQLProvider.validateConfig (withExtra ⟨none, none, none, none, none, []⟩
        [("note", "extra")]) =
      PostgreSQLProvider.validateConfig ⟨none, none, none, none, none, []⟩ ∧
    SupabaseProvider.validateConfig (withExtra ⟨none, none, none, none, none, []⟩
        [("note", "extra")]) =
      SupabaseProvider.validateConfig ⟨none, none, none, none, none, []⟩ ∧
    MongoDBProvider.validateConfig (withExtra ⟨none, none, none, none, none, []⟩
        [("note", "extra")]) =
      MongoDBProvider.validateConfig ⟨none, none, none, none, none, []⟩ :=
  c3_amended ⟨none, none, none, none, none, []⟩ [("note", "extra")]

/-- Witness for C7 at a failing probe. -/
theorem c7_isAvailable_never_throws_witness :
    SupabaseProvider.isAvailable (.error "command not found") =
      .ok (probeSucceeds (.error "command not found")) ∧
    MongoDBProvider.isAvailable (.error "command not found") =
      .ok (probeSucceeds (.error "command not found")) ∧
    MySQLProvider.isAvailable (.error "command not found") =
      .ok (probeSucceeds (.error "command not found")) ∧
    PostgreSQLProvider.isAvailable (.error "command not found") =
      .ok (probeSucceeds (.error "command not found")) ∧
    (probeSucceeds (.error "command not found") = true ↔
      (.error "command not found" : Except String Unit) = .ok ()) :=
  c7_isAvailable_never_throws (.error "command not found")

end QDB
